import Mathlib

/-!
Verification of the Job Search orchestrator
(`src/JobSearchTool/job-hunt-agent-new.py`).

The repository's only logical component is `JobSearchingAgent`, which
sequences one call to an extraction provider (Firecrawl) into one call to
a text-generation endpoint.  We give a shallow embedding of that
orchestration flow:

* the two external adapters are explicit function parameters
  (`extract : List String → String → Except String (RawResponse δ)` for
  `self.firecrawl.extract`, and `gen : String → String` for
  `self._generate_text`);
* an operation returns, next to its result string, the list of prompts it
  actually passed to the generation adapter, so "the generation adapter is
  invoked exactly once / never" is the statement that this list is a
  singleton / empty;
* a Python exception raised by a call is modelled as `Except.error` carrying
  `str(e)`; the orchestrator's `try/except` blocks appear as `match`es on
  those values.  The Lean functions are total, mirroring the fact that the
  Python methods never let an exception escape their own `try/except`.

Strings are modelled by Lean `String`; Python's `str.lower` /
`str.replace(c, r)` (single-character pattern) are embedded character-wise
on `String.data` (all inputs of interest are ASCII).
-/

/-- Characters of one string occurring contiguously inside another:
`StrContains s t` says `t` is a contiguous segment of `s`. -/
def StrContains (s t : String) : Prop :=
  ∃ a b : List Char, s.data = a ++ t.data ++ b

/-- Boolean test that `pat` starts the list `s`. -/
def leadsWith : List Char → List Char → Bool
  | [], _ => true
  | _ :: _, [] => false
  | p :: ps, c :: cs => p == c && leadsWith ps cs

/-- Boolean test that `pat` occurs contiguously somewhere in `s`. -/
def hasSeg : List Char → List Char → Bool
  | pat, [] => leadsWith pat []
  | pat, c :: cs => leadsWith pat (c :: cs) || hasSeg pat cs

theorem leadsWith_iff : ∀ (pat s : List Char), leadsWith pat s = true ↔ ∃ r, s = pat ++ r
  | [], s => by simp [leadsWith]
  | _ :: _, [] => by simp [leadsWith]
  | p :: ps, c :: cs => by
    simp only [leadsWith, Bool.and_eq_true, beq_iff_eq, leadsWith_iff ps cs,
      List.cons_append, List.cons.injEq]
    constructor
    · rintro ⟨rfl, r, rfl⟩
      exact ⟨r, rfl, rfl⟩
    · rintro ⟨r, rfl, rfl⟩
      exact ⟨rfl, r, rfl⟩

theorem hasSeg_iff : ∀ (pat s : List Char), hasSeg pat s = true ↔ ∃ a b, s = a ++ pat ++ b
  | pat, [] => by
    cases pat with
    | nil => simp [hasSeg, leadsWith]
    | cons p ps =>
      simp only [hasSeg, leadsWith]
      constructor
      · intro h
        exact absurd h (by simp)
      · rintro ⟨a, b, h⟩
        exact absurd h (by cases a <;> simp)
  | pat, c :: cs => by
    simp only [hasSeg, Bool.or_eq_true, leadsWith_iff, hasSeg_iff pat cs]
    constructor
    · rintro (⟨r, h⟩ | ⟨a, b, h⟩)
      · exact ⟨[], r, by simpa using h⟩
      · exact ⟨c :: a, b, by simp [h]⟩
    · rintro ⟨a, b, h⟩
      cases a with
      | nil => exact Or.inl ⟨b, by simpa using h⟩
      | cons a0 as =>
        rw [List.cons_append, List.cons_append, List.cons.injEq] at h
        exact Or.inr ⟨as, b, h.2⟩

theorem strContains_iff_hasSeg (s t : String) :
    StrContains s t ↔ hasSeg t.data s.data = true := by
  rw [hasSeg_iff]
  rfl

instance (s t : String) : Decidable (StrContains s t) :=
  decidable_of_iff _ (strContains_iff_hasSeg s t).symm

theorem string_data_append (a b : String) : (a ++ b).data = a.data ++ b.data := by
  cases a
  cases b
  rfl

theorem strContains_refl (s : String) : StrContains s s :=
  ⟨[], [], by simp⟩

theorem strContains_append_left (u : String) {s t : String} (h : StrContains s t) :
    StrContains (u ++ s) t := by
  obtain ⟨a, b, hab⟩ := h
  exact ⟨u.data ++ a, b, by rw [string_data_append, hab]; simp⟩

theorem strContains_append_right (u : String) {s t : String} (h : StrContains s t) :
    StrContains (s ++ u) t := by
  obtain ⟨a, b, hab⟩ := h
  exact ⟨a, b ++ u.data, by rw [string_data_append, hab]; simp⟩

theorem strContains_trans {s t u : String} (h1 : StrContains s t) (h2 : StrContains t u) :
    StrContains s u := by
  obtain ⟨a, b, hab⟩ := h1
  obtain ⟨c, d, hcd⟩ := h2
  exact ⟨a ++ c, d ++ b, by rw [hab, hcd]; simp⟩

/-- Embedding of Python's `sep.join(parts)`. -/
def pyJoin (sep : String) : List String → String
  | [] => ""
  | [x] => x
  | x :: y :: ys => x ++ sep ++ pyJoin sep (y :: ys)

theorem strContains_pyJoin_map {α : Type} (sep : String) (f : α → String) :
    ∀ (l : List α) (a : α), a ∈ l → StrContains (pyJoin sep (l.map f)) (f a)
  | [], a, h => absurd h (List.not_mem_nil a)
  | [x], a, h => by
    rw [List.mem_singleton] at h
    subst h
    exact strContains_refl (f a)
  | x :: y :: ys, a, h => by
    rcases List.mem_cons.mp h with h' | h'
    · subst h'
      show StrContains (f a ++ sep ++ pyJoin sep ((y :: ys).map f)) (f a)
      exact strContains_append_right _ (strContains_append_right _ (strContains_refl (f a)))
    · show StrContains (f x ++ sep ++ pyJoin sep ((y :: ys).map f)) (f a)
      exact strContains_append_left _ (strContains_pyJoin_map sep f (y :: ys) a h')

/-!
Data model.

The extraction provider returns JSON; a returned job posting or industry
trend record reaches the orchestrator as a plain Python `dict`.  We model
such a record as an association list of string keys to string values, and
reproduce Python's `repr` for it, since the orchestrator embeds these
records into generation prompts via an f-string (`f"{jobs}"`,
`f"{industries}"`).
-/

/-- A JSON-object record as the extraction provider returns it (a Python
`dict` of string keys to string values, in insertion order). -/
abbrev PyDict : Type := List (String × String)

/-- Python `repr` of one `'key': 'value'` entry of a dict. -/
def pyReprPair (kv : String × String) : String :=
  "'" ++ kv.1 ++ "': '" ++ kv.2 ++ "'"

/-- Python `repr` of a dict of strings, e.g. `{'job_title': 'X'}`. -/
def pyReprDict (d : PyDict) : String :=
  "\x7b" ++ pyJoin ", " (d.map pyReprPair) ++ "\x7d"

/-- Python `repr`/`str` of a list of dicts, as interpolated by `f"{jobs}"`. -/
def pyReprList (l : List PyDict) : String :=
  "[" ++ pyJoin ", " (l.map pyReprDict) ++ "]"

/-- Result of `self.firecrawl.extract(...)` as the orchestrator inspects it
(`job-hunt-agent-new.py`, lines 92-95 and 143-144).  The code first tests
`isinstance(raw_response, dict)`; `notDict` is any non-dict value.  For a
dict, `success` is the truthiness of `raw_response.get('success')`, and
`data` is `some d` when the `'data'` key is present.  `δ` instantiates to
`Option (List PyDict)`: `some l` when the expected list key
(`'job_postings'` resp. `'industry_trends'`) is present in the data
mapping with value `l`, `none` when that key is absent. -/
inductive RawResponse (δ : Type) where
  | notDict : RawResponse δ
  | dict (success : Bool) (data : Option δ) : RawResponse δ

/-- The `success` truthiness the orchestrator branches on: falsy for a
non-dict response (`isinstance` fails first). -/
def rawSuccess {δ : Type} : RawResponse δ → Bool
  | .notDict => false
  | .dict s _ => s

/-- The record list the orchestrator works with, following lines 92-95
(and identically 143-144): non-dict or falsy `success` gives `[]`;
truthy `success` with the `'data'` key absent raises `KeyError('data')`
(modelled as `none`); otherwise the list under the expected key, default
`[]` when that key is absent (`dict.get(key, [])`). -/
def extractedList {α : Type} : RawResponse (Option (List α)) → Option (List α)
  | .notDict => some []
  | .dict false _ => some []
  | .dict true none => none
  | .dict true (some d) => some (d.getD [])

/-- Embedding of Python `s.replace(c, r)` for a single-character pattern
and replacement (the only form the source uses). -/
def pyReplace (c r : Char) (s : String) : String :=
  ⟨s.data.map fun ch => if ch = c then r else ch⟩

/-- Embedding of Python `s.lower()` (ASCII case mapping). -/
def pyLower (s : String) : String :=
  ⟨s.data.map Char.toLower⟩

/-- Normalization applied to the job title and the location on lines 66-67:
`job_title.lower().replace(" ", "-")`. -/
def format_token (s : String) : String :=
  pyReplace ' ' '-' (pyLower s)

/-- The three listing-site URLs built on lines 69-73 of `find_jobs`. -/
def find_jobs_urls (job_title location : String) : List String :=
  ["https://www.naukri.com/" ++ format_token job_title ++ "-jobs-in-" ++
    format_token location,
   "https://www.indeed.com/jobs?q=" ++ format_token job_title ++ "&l=" ++
    format_token location,
   "https://www.monster.com/jobs/search/?q=" ++ format_token job_title ++ "&where=" ++
    format_token location]

/-- The extraction instruction f-string of lines 78-88, with its original
indentation (the triple-quoted literal keeps 20 leading spaces on its
continuation lines).  `skills_string` is `", ".join(skills)`. -/
def find_jobs_extraction_instruction (job_title location : String)
    (experience_years : Nat) (skills_string : String) : String :=
  "Extract job postings by region, roles, job titles, and experience from these job sites.\n                    Look for jobs that match these criteria:\n                    - Job Title: Should be related to " ++
  job_title ++
  "\n                    - Location: " ++
  location ++
  " (include remote jobs if available)\n                    - Experience: Around " ++
  toString experience_years ++
  " years\n                    - Skills: Should match at least some of these skills: " ++
  skills_string ++
  "\n                    - Job Type: Full-time, Part-time, Contract, Temporary, Internship\n                    Extract:\n                    - region, role, job_title, experience, job_link\n                    MAX 10 postings.\n                    "

/-- The summarization f-string of lines 99-120, built around the
interpolation `f"{jobs}"` of the raw postings list. -/
def jobs_summary_instruction (jobsRepr : String) : String :=
  "As a career expert, analyze these job opportunities:\nJobs:\n" ++
  jobsRepr ++
  "\nINSTRUCTIONS:\n1. Select best matching 5-6 jobs.\n2. Provide:\n💼 SELECTED JOB OPPORTUNITIES\n- Job Title and Role\n- Region/Location\n- Experience Required\n- Pros and Cons\n- Job Link\n🔍 SKILLS MATCH ANALYSIS\n- Skills match\n- Experience fit\n- Growth potential\n💡 RECOMMENDATIONS\n- Top 3 jobs\n- Career growth\n📝 APPLICATION TIPS\n- Resume and strategy tips\n"

/-- The two salary-research URLs built on lines 127-130 of
`get_industry_trends`. -/
def get_industry_trends_urls (job_category : String) : List String :=
  ["https://www.payscale.com/research/US/Job=" ++ pyReplace ' ' '_' job_category ++
    "/Salary",
   "https://www.glassdoor.com/Salaries/" ++ pyReplace ' ' '-' (pyLower job_category) ++
    "-salary-SRCH_KO0," ++ toString job_category.length ++ ".htm"]

/-- The extraction instruction f-string of lines 135-139. -/
def trends_extraction_instruction (job_category : String) : String :=
  "Extract industry trends data for the " ++
  job_category ++
  " industry.\n                    For each, extract:\n                    - industry, avg_salary, growth_rate, demand_level, top_skills\n                    3-5 roles/sub-categories.\n                    "

/-- The summarization f-string of lines 147-153, around `f"{industries}"`. -/
def trends_summary_instruction (job_category : String) (industriesRepr : String) : String :=
  "Analyze these trends for " ++
  job_category ++
  ":\n" ++
  industriesRepr ++
  "\n📊 INDUSTRY TRENDS SUMMARY\n🔥 TOP SKILLS IN DEMAND\n📈 CAREER GROWTH OPPORTUNITIES\n🎯 RECOMMENDATIONS FOR JOB SEEKERS\n"

/-!
The generation adapter `_generate_text` (lines 47-62).

`requests.post` either raises (transport failure, modelled as the
`Except.error` case of its result) or yields a response with a status code
and a body.  `response.json()` either decodes the body (here: to a JSON
array of string-keyed objects, the only shape the code reads) or raises;
a decode failure, or a body that is not an array, is modelled as the
`Except.error` case of `jsonBody` carrying the exception's `str`.
`response.raise_for_status()` raises exactly for status codes in
`[400, 600)` (client and server errors); its exception text is modelled
as `"<status> Error"`.  `response.json()[0]` raises
`IndexError('list index out of range')` on an empty array, and
`[...]['generated_text']` raises `KeyError('generated_text')` when the
first object lacks that key.  Every raise is caught by the single
`except Exception as e` and turned into `f"Error generating text: {e}"`.
-/

/-- An HTTP response as `_generate_text` consumes it. -/
structure HttpResponse where
  status : Nat
  jsonBody : Except String (List PyDict)

/-- Embedding of `_generate_text` (lines 47-62), as a function of the
outcome of the `requests.post` call.  Total: every failure path returns
the `"Error generating text: ..."` string, never raises. -/
def generate_text (postResult : Except String HttpResponse) : String :=
  match postResult with
  | .error e => "Error generating text: " ++ e
  | .ok response =>
    if 400 ≤ response.status ∧ response.status < 600 then
      "Error generating text: " ++ toString response.status ++ " Error"
    else
      match response.jsonBody with
      | .error e => "Error generating text: " ++ e
      | .ok [] => "Error generating text: list index out of range"
      | .ok (first :: _) =>
        match first.lookup "generated_text" with
        | none => "Error generating text: 'generated_text'"
        | some t => t

/-- The happy path of `_generate_text`: `some t` exactly when no step of
the body raises, in which case `t` is the `generated_text` field of the
first element of the decoded array. -/
def generate_text_success (postResult : Except String HttpResponse) : Option String :=
  match postResult with
  | .error _ => none
  | .ok response =>
    if 400 ≤ response.status ∧ response.status < 600 then none
    else
      match response.jsonBody with
      | .error _ => none
      | .ok [] => none
      | .ok (first :: _) => first.lookup "generated_text"

/-!
The orchestrator operations (lines 64-157).

Each operation takes the two adapters as parameters and returns the result
string paired with the list of prompts it passed to the generation
adapter (so that "never invoked" is `= []` and "invoked exactly once with
prompt p" is `= [p]`).
-/

/-- Embedding of `JobSearchingAgent.find_jobs` (lines 64-123).
The extraction adapter is invoked on `find_jobs_urls job_title location`
and the instruction of lines 78-88; an exception it raises is the
`Except.error` case.  Lines 92-97 select the posting list or the fixed
no-results message; otherwise the prompt of lines 99-120 goes to the
generation adapter and its output is returned verbatim (line 121).  The
whole body sits in `try/except` (lines 74, 122-123): an exception
becomes `f"An error occurred while searching for jobs: {str(e)}"`;
`str(KeyError('data'))` is `"'data'"`. -/
def find_jobs (job_title location : String) (experience_years : Nat) (skills : List String)
    (extract : List String → String → Except String (RawResponse (Option (List PyDict))))
    (gen : String → String) : String × List String :=
  let skills_string := pyJoin ", " skills
  let urls := find_jobs_urls job_title location
  match extract urls
      (find_jobs_extraction_instruction job_title location experience_years skills_string) with
  | .error e => ("An error occurred while searching for jobs: " ++ e, [])
  | .ok raw =>
    match extractedList raw with
    | none => ("An error occurred while searching for jobs: 'data'", [])
    | some [] => ("No job listings found matching your criteria.", [])
    | some (j :: js) =>
      let p := jobs_summary_instruction (pyReprList (j :: js))
      (gen p, [p])

/-- Embedding of `JobSearchingAgent.get_industry_trends` (lines 125-157),
with the same conventions as `find_jobs`.  Both the `success`-falsy /
non-dict fall-through of line 155 and the empty-list return of line 146
produce the same fixed message. -/
def get_industry_trends (job_category : String)
    (extract : List String → String → Except String (RawResponse (Option (List PyDict))))
    (gen : String → String) : String × List String :=
  match extract (get_industry_trends_urls job_category)
      (trends_extraction_instruction job_category) with
  | .error e => ("An error occurred while fetching industry trends: " ++ e, [])
  | .ok raw =>
    match extractedList raw with
    | none => ("An error occurred while fetching industry trends: 'data'", [])
    | some [] => ("No industry trends data available for " ++ job_category ++ ".", [])
    | some (i :: is) =>
      let p := trends_summary_instruction job_category (pyReprList (i :: is))
      (gen p, [p])

/-- The state `JobSearchingAgent.__init__` (lines 42-45) stores: the three
credential/endpoint values, fixed at construction. -/
structure JobSearchingAgent where
  firecrawl_api_key : String
  hf_api_key : String
  model_url : String

/-- `find_jobs` as a method call with explicit state passing: the agent's
stored credentials select the concrete adapters (the extraction service is
addressed by `firecrawl_api_key`, the generation service by `model_url`
and `hf_api_key`, cf. lines 43-45, 50, 58), and the agent state after the
call is returned alongside the result.  The method body never assigns to
`self`, so the state comes back unchanged. -/
def find_jobs_method (a : JobSearchingAgent) (job_title location : String)
    (experience_years : Nat) (skills : List String)
    (extractSvc : String → List String → String → Except String (RawResponse (Option (List PyDict))))
    (genSvc : String → String → String → String) :
    (String × List String) × JobSearchingAgent :=
  (find_jobs job_title location experience_years skills
    (extractSvc a.firecrawl_api_key)
    (fun p => genSvc a.model_url a.hf_api_key p), a)

/-!
Containment lemmas: where a value interpolated into an f-string ends up.
-/

theorem strContains_pyReprDict_value {p : PyDict} {k v : String} (h : (k, v) ∈ p) :
    StrContains (pyReprDict p) v := by
  have h1 : StrContains (pyReprPair (k, v)) v := by
    unfold pyReprPair
    exact strContains_append_right _ (strContains_append_left _ (strContains_refl v))
  have h2 : StrContains (pyJoin ", " (p.map pyReprPair)) (pyReprPair (k, v)) :=
    strContains_pyJoin_map ", " pyReprPair p (k, v) h
  have h3 : StrContains (pyReprDict p) (pyReprPair (k, v)) := by
    unfold pyReprDict
    exact strContains_append_right _ (strContains_append_left _ h2)
  exact strContains_trans h3 h1

theorem strContains_pyReprList_dict {l : List PyDict} {p : PyDict} (h : p ∈ l) :
    StrContains (pyReprList l) (pyReprDict p) := by
  unfold pyReprList
  exact strContains_append_right _
    (strContains_append_left _ (strContains_pyJoin_map ", " pyReprDict l p h))

theorem strContains_jobs_summary_repr (r : String) :
    StrContains (jobs_summary_instruction r) r := by
  unfold jobs_summary_instruction
  exact strContains_append_right _ (strContains_append_left _ (strContains_refl r))

theorem strContains_extraction_skills (job_title location : String)
    (experience_years : Nat) (skills_string : String) :
    StrContains
      (find_jobs_extraction_instruction job_title location experience_years skills_string)
      skills_string := by
  unfold find_jobs_extraction_instruction
  exact strContains_append_right _ (strContains_append_left _ (strContains_refl skills_string))

/-!
Claims.
-/

theorem extractedList_nil_of_fail_or_empty {α : Type}
    {raw : RawResponse (Option (List α))}
    (h : rawSuccess raw = false ∨ extractedList raw = some []) :
    extractedList raw = some [] := by
  rcases h with h | h
  · cases raw with
    | notDict => rfl
    | dict s d =>
      cases s with
      | false => rfl
      | true => simp [rawSuccess] at h
  · exact h

/-- C1: for every input where the extraction adapter reports failure
(`success` is not true) or returns zero records, `find_jobs` returns the
fixed message "No job listings found matching your criteria." and
`get_industry_trends` returns its fixed "no data" message, and in both
cases the generation adapter is never invoked (the list of prompts passed
to it is empty). -/
theorem claim_C1_no_results_short_circuit
    (job_title location job_category : String) (experience_years : Nat)
    (skills : List String) (gen genT : String → String)
    (rawJ rawT : RawResponse (Option (List PyDict)))
    (hJ : rawSuccess rawJ = false ∨ extractedList rawJ = some [])
    (hT : rawSuccess rawT = false ∨ extractedList rawT = some []) :
    find_jobs job_title location experience_years skills
        (fun _ _ => .ok rawJ) gen
      = ("No job listings found matching your criteria.", []) ∧
    get_industry_trends job_category (fun _ _ => .ok rawT) genT
      = ("No industry trends data available for " ++ job_category ++ ".", []) := by
  have hJ' := extractedList_nil_of_fail_or_empty hJ
  have hT' := extractedList_nil_of_fail_or_empty hT
  constructor
  · simp only [find_jobs, hJ']
  · simp only [get_industry_trends, hT']

/-- Witness for C1 at a failed extraction for jobs and an empty trends
list. -/
theorem claim_C1_witness :
    (rawSuccess (RawResponse.notDict : RawResponse (Option (List PyDict))) = false ∨
      extractedList (RawResponse.notDict : RawResponse (Option (List PyDict))) = some []) ∧
    (rawSuccess (RawResponse.dict true (some (some ([] : List PyDict)))) = false ∨
      extractedList (RawResponse.dict true (some (some ([] : List PyDict)))) = some []) ∧
    (find_jobs "Software Engineer" "New York" 2 ["Python"]
        (fun _ _ => .ok RawResponse.notDict) (fun p => p)
      = ("No job listings found matching your criteria.", []) ∧
    get_industry_trends "Data Science"
        (fun _ _ => .ok (RawResponse.dict true (some (some [])))) (fun p => p)
      = ("No industry trends data available for " ++ "Data Science" ++ ".", [])) :=
  ⟨Or.inl rfl, Or.inr rfl,
    claim_C1_no_results_short_circuit "Software Engineer" "New York" "Data Science" 2
      ["Python"] (fun p => p) (fun p => p) RawResponse.notDict
      (RawResponse.dict true (some (some []))) (Or.inl rfl) (Or.inr rfl)⟩

/-- C3: neither operation lets an exception escape (both are total Lean
functions); an exception raised by the extraction call (`Except.error e`,
carrying `str(e)`) and the `KeyError('data')` raised when a successful
response lacks the `'data'` key are caught by the top-level `try/except`
and converted into the descriptive error string that is returned as the
result (and the generation adapter is not reached). -/
theorem claim_C3_exceptions_become_error_strings
    (job_title location job_category e : String) (experience_years : Nat)
    (skills : List String) (gen : String → String) :
    find_jobs job_title location experience_years skills
        (fun _ _ => .error e) gen
      = ("An error occurred while searching for jobs: " ++ e, []) ∧
    find_jobs job_title location experience_years skills
        (fun _ _ => .ok (RawResponse.dict true none)) gen
      = ("An error occurred while searching for jobs: 'data'", []) ∧
    get_industry_trends job_category (fun _ _ => .error e) gen
      = ("An error occurred while fetching industry trends: " ++ e, []) ∧
    get_industry_trends job_category
        (fun _ _ => .ok (RawResponse.dict true none)) gen
      = ("An error occurred while fetching industry trends: 'data'", []) :=
  ⟨rfl, rfl, rfl, rfl⟩

/-- C5: `get_industry_trends` returns the identical fixed message when the
extraction reports `success=true` with an empty list and when it reports
`success=false` (whatever the `data` field then holds); for category
"Data Science" with zero records the output is exactly
"No industry trends data available for Data Science." and the generation
adapter is never called. -/
theorem claim_C5_trends_empty_equals_failure
    (job_category : String) (d : Option (Option (List PyDict)))
    (gen genF genD : String → String) :
    get_industry_trends job_category
        (fun _ _ => .ok (RawResponse.dict true (some (some [])))) gen
      = ("No industry trends data available for " ++ job_category ++ ".", []) ∧
    get_industry_trends job_category
        (fun _ _ => .ok (RawResponse.dict false d)) genF
      = ("No industry trends data available for " ++ job_category ++ ".", []) ∧
    get_industry_trends "Data Science"
        (fun _ _ => .ok (RawResponse.dict true (some (some [])))) genD
      = ("No industry trends data available for Data Science.", []) := by
  refine ⟨rfl, ?_, rfl⟩
  cases d <;> rfl

/-- C9: an extraction response that is not a dict, or a successful dict
whose data mapping lacks the expected list key (`'job_postings'` for
`find_jobs`, `'industry_trends'` for `get_industry_trends`), behaves
exactly like the zero-records case: the fixed no-results message is
returned and the generation adapter is never invoked. -/
theorem claim_C9_not_dict_or_missing_key_like_empty
    (job_title location job_category : String) (experience_years : Nat)
    (skills : List String) (gen : String → String) :
    find_jobs job_title location experience_years skills
        (fun _ _ => .ok RawResponse.notDict) gen
      = ("No job listings found matching your criteria.", []) ∧
    find_jobs job_title location experience_years skills
        (fun _ _ => .ok (RawResponse.dict true (some none))) gen
      = ("No job listings found matching your criteria.", []) ∧
    find_jobs job_title location experience_years skills
        (fun _ _ => .ok (RawResponse.dict true (some (some [])))) gen
      = ("No job listings found matching your criteria.", []) ∧
    get_industry_trends job_category (fun _ _ => .ok RawResponse.notDict) gen
      = ("No industry trends data available for " ++ job_category ++ ".", []) ∧
    get_industry_trends job_category
        (fun _ _ => .ok (RawResponse.dict true (some none))) gen
      = ("No industry trends data available for " ++ job_category ++ ".", []) ∧
    get_industry_trends job_category
        (fun _ _ => .ok (RawResponse.dict true (some (some [])))) gen
      = ("No industry trends data available for " ++ job_category ++ ".", []) :=
  ⟨rfl, rfl, rfl, rfl, rfl, rfl⟩

/-- C2: for every extraction result with a non-empty list of job postings,
`find_jobs` invokes the generation adapter exactly once (the prompt list is
the singleton `[p]`), the prompt `p` embeds the postings list (it contains
the Python `repr` of the list, hence the `job_title` value of every
posting), and the result is the generation adapter's output on `p`,
verbatim. -/
theorem claim_C2_generation_called_once_verbatim
    (job_title location : String) (experience_years : Nat) (skills : List String)
    (gen : String → String) (j : PyDict) (js : List PyDict) :
    find_jobs job_title location experience_years skills
        (fun _ _ => .ok (RawResponse.dict true (some (some (j :: js))))) gen
      = (gen (jobs_summary_instruction (pyReprList (j :: js))),
         [jobs_summary_instruction (pyReprList (j :: js))]) ∧
    StrContains (jobs_summary_instruction (pyReprList (j :: js))) (pyReprList (j :: js)) ∧
    (∀ p, p ∈ j :: js → ∀ v, ("job_title", v) ∈ p →
      StrContains (jobs_summary_instruction (pyReprList (j :: js))) v) := by
  refine ⟨rfl, strContains_jobs_summary_repr _, ?_⟩
  intro p hp v hv
  exact strContains_trans
    (strContains_trans (strContains_jobs_summary_repr _) (strContains_pyReprList_dict hp))
    (strContains_pyReprDict_value hv)

/-- Witness for C2 at exactly two postings: the adapter is called once and
the prompt contains both `job_title` values. -/
theorem claim_C2_witness :
    (find_jobs "Software Engineer" "New York" 2 ["Python"]
        (fun _ _ => .ok (RawResponse.dict true (some (some
          [[("job_title", "Backend Engineer")], [("job_title", "Data Analyst")]])))) 
        (fun p => "GEN:" ++ p)).2.length = 1 ∧
    StrContains
      (jobs_summary_instruction (pyReprList
        [[("job_title", "Backend Engineer")], [("job_title", "Data Analyst")]]))
      "Backend Engineer" ∧
    StrContains
      (jobs_summary_instruction (pyReprList
        [[("job_title", "Backend Engineer")], [("job_title", "Data Analyst")]]))
      "Data Analyst" := by
  have h := claim_C2_generation_called_once_verbatim "Software Engineer" "New York" 2
    ["Python"] (fun p => "GEN:" ++ p) [("job_title", "Backend Engineer")]
    [[("job_title", "Data Analyst")]]
  refine ⟨?_, ?_, ?_⟩
  · rw [h.1]
    rfl
  · exact h.2.2 [("job_title", "Backend Engineer")] (by simp) "Backend Engineer" (by simp)
  · exact h.2.2 [("job_title", "Data Analyst")] (by simp) "Data Analyst" (by simp)

/-- C6: `find_jobs` constructs exactly three listing-site URLs, and the
lowercase hyphen-joined form of the title and of the location (for example
`format_token "Software Engineer" = "software-engineer"` and
`format_token "New York" = "new-york"`) appears as a substring of each of
the three URLs. -/
theorem claim_C6_three_urls_contain_tokens (job_title location : String) :
    (find_jobs_urls job_title location).length = 3 ∧
    format_token "Software Engineer" = "software-engineer" ∧
    format_token "New York" = "new-york" ∧
    (∀ u, u ∈ find_jobs_urls job_title location →
      StrContains u (format_token job_title) ∧ StrContains u (format_token location)) := by
  refine ⟨rfl, by decide, by decide, ?_⟩
  intro u hu
  have hsplit :
      u = "https://www.naukri.com/" ++ format_token job_title ++ "-jobs-in-" ++
        format_token location ∨
      u = "https://www.indeed.com/jobs?q=" ++ format_token job_title ++ "&l=" ++
        format_token location ∨
      u = "https://www.monster.com/jobs/search/?q=" ++ format_token job_title ++
        "&where=" ++ format_token location := by
    simpa [find_jobs_urls] using hu
  rcases hsplit with rfl | rfl | rfl <;>
    exact ⟨strContains_append_right _ (strContains_append_right _
            (strContains_append_left _ (strContains_refl _))),
           strContains_append_left _ (strContains_refl _)⟩

/-- Witness for C6 at the spec's example inputs: the hyphen-joined tokens
occur in the first constructed URL. -/
theorem claim_C6_witness :
    ("https://www.naukri.com/software-engineer-jobs-in-new-york" ∈
      find_jobs_urls "Software Engineer" "New York") ∧
    (StrContains "https://www.naukri.com/software-engineer-jobs-in-new-york"
        (format_token "Software Engineer") ∧
     StrContains "https://www.naukri.com/software-engineer-jobs-in-new-york"
        (format_token "New York")) := by
  have hmem : "https://www.naukri.com/software-engineer-jobs-in-new-york" ∈
      find_jobs_urls "Software Engineer" "New York" := by decide
  exact ⟨hmem,
    (claim_C6_three_urls_contain_tokens "Software Engineer" "New York").2.2.2
      "https://www.naukri.com/software-engineer-jobs-in-new-york" hmem⟩

/-- C10: `get_industry_trends` constructs exactly two salary-research URLs
with asymmetric normalization: the Payscale URL embeds the category with
its original casing and spaces replaced by underscores, the Glassdoor URL
embeds the lowercased hyphen-joined category and, right after
`"SRCH_KO0,"`, the character length of the original category string.  At
category "Data Science" (length 12) the two URLs are computed exactly. -/
theorem claim_C10_trends_urls_asymmetric_normalization (job_category : String) :
    (get_industry_trends_urls job_category).length = 2 ∧
    StrContains ((get_industry_trends_urls job_category).getD 0 "")
      (pyReplace ' ' '_' job_category) ∧
    StrContains ((get_industry_trends_urls job_category).getD 1 "")
      (pyReplace ' ' '-' (pyLower job_category)) ∧
    StrContains ((get_industry_trends_urls job_category).getD 1 "")
      ("SRCH_KO0," ++ toString job_category.length) ∧
    get_industry_trends_urls "Data Science"
      = ["https://www.payscale.com/research/US/Job=Data_Science/Salary",
         "https://www.glassdoor.com/Salaries/data-science-salary-SRCH_KO0,12.htm"] := by
  refine ⟨rfl, ?_, ?_, ?_, by decide⟩
  · exact strContains_append_right _ (strContains_append_left _ (strContains_refl _))
  · exact strContains_append_right _ (strContains_append_right _ (strContains_append_right _
      (strContains_append_left _ (strContains_refl _))))
  · show StrContains
      ("https://www.glassdoor.com/Salaries/" ++ pyReplace ' ' '-' (pyLower job_category) ++
        "-salary-SRCH_KO0," ++ toString job_category.length ++ ".htm")
      ("SRCH_KO0," ++ toString job_category.length)
    refine strContains_append_right ".htm" ?_
    obtain ⟨pre, hpre⟩ :
        ∃ pre : String,
          "https://www.glassdoor.com/Salaries/" ++ pyReplace ' ' '-' (pyLower job_category) ++
            "-salary-SRCH_KO0," = pre ++ "SRCH_KO0," := by
      refine ⟨"https://www.glassdoor.com/Salaries/" ++ pyReplace ' ' '-' (pyLower job_category) ++
        "-salary-", ?_⟩
      refine String.ext ?_
      simp only [string_data_append, List.append_assoc, List.cons_append, List.nil_append]
    rw [hpre, String.append_assoc]
    exact strContains_append_left pre (strContains_refl _)

/-- C4 as stated is refuted: `response.raise_for_status()` raises only for
4xx/5xx status codes, so a non-2xx response outside that range (here a 303
redirect status) whose body is well-formed makes `_generate_text` return
the body's `generated_text` verbatim — not a human-readable error string
(the output contains no error indicator at all). -/
theorem claim_C4_counterexample :
    generate_text (.ok ⟨303, .ok [[("generated_text", "All good")]]⟩) = "All good" ∧
    ¬ (200 ≤ 303 ∧ 303 < 300) ∧
    ¬ StrContains "All good" "Error" :=
  ⟨rfl, by decide, by decide⟩

/-- C4 (amended): `_generate_text` always returns a string and never raises
to its caller; on any transport failure, any 4xx/5xx HTTP response, or any
malformed response body (undecodable body, empty array, or first element
lacking `'generated_text'`), the exception is caught and a human-readable
string of the form "Error generating text: ..." is returned as if it were
valid output, while on the happy path the `generated_text` field is
returned verbatim. -/
theorem claim_C4_amended_error_paths (call : Except String HttpResponse) :
    (∀ t, generate_text_success call = some t → generate_text call = t) ∧
    (generate_text_success call = none →
      ∃ e, generate_text call = "Error generating text: " ++ e) := by
  constructor
  · intro t ht
    cases call with
    | error e => simp [generate_text_success] at ht
    | ok r =>
      by_cases h : 400 ≤ r.status ∧ r.status < 600
      · simp [generate_text_success, h] at ht
      · cases hb : r.jsonBody with
        | error e => simp [generate_text_success, h, hb] at ht
        | ok l =>
          cases l with
          | nil => simp [generate_text_success, h, hb] at ht
          | cons first rest =>
            simp only [generate_text_success, h, if_false, hb] at ht
            simp [generate_text, h, hb, ht]
  · intro hn
    cases call with
    | error e => exact ⟨e, rfl⟩
    | ok r =>
      by_cases h : 400 ≤ r.status ∧ r.status < 600
      · exact ⟨toString r.status ++ " Error", by simp [generate_text, h, String.append_assoc]⟩
      · cases hb : r.jsonBody with
        | error e => exact ⟨e, by simp [generate_text, h, hb]⟩
        | ok l =>
          cases l with
          | nil => exact ⟨"list index out of range", by simp [generate_text, h, hb]⟩
          | cons first rest =>
            simp only [generate_text_success, h, if_false, hb] at hn
            exact ⟨"'generated_text'", by simp [generate_text, h, hb, hn]⟩

/-- Witness for C4 (amended): a transport failure yields an error-prefixed
string; a 200 response with a well-formed body yields the generated text
verbatim. -/
theorem claim_C4_witness :
    generate_text_success (.error "Connection refused") = none ∧
    (∃ e, generate_text (.error "Connection refused") = "Error generating text: " ++ e) ∧
    generate_text_success (.ok ⟨200, .ok [[("generated_text", "Hello")]]⟩) = some "Hello" ∧
    generate_text (.ok ⟨200, .ok [[("generated_text", "Hello")]]⟩) = "Hello" :=
  ⟨rfl, (claim_C4_amended_error_paths (.error "Connection refused")).2 rfl, rfl,
    (claim_C4_amended_error_paths (.ok ⟨200, .ok [[("generated_text", "Hello")]]⟩)).1
      "Hello" rfl⟩

/-- C7 as stated is refuted: the joined skills string is embedded in the
extraction instruction only; the prompt passed to the generation adapter
(line 99-120) interpolates just the postings list.  Concretely, running
`find_jobs` with skills `["Python","SQL"]` and one extracted posting, the
single prompt handed to the generation adapter does not contain the
substring "Python, SQL". -/
theorem claim_C7_counterexample :
    (find_jobs "Software Engineer" "New York" 2 ["Python", "SQL"]
        (fun _ _ => .ok (RawResponse.dict true (some (some
          [[("job_title", "Backend Developer")]]))))
        (fun p => p)).2
      = [jobs_summary_instruction (pyReprList [[("job_title", "Backend Developer")]])] ∧
    ¬ StrContains (jobs_summary_instruction (pyReprList [[("job_title", "Backend Developer")]]))
        "Python, SQL" :=
  ⟨rfl, by
    set_option maxRecDepth 20000 in
    set_option maxHeartbeats 1000000 in
    decide⟩

/-- C7 (amended): for the skills sequence `["Python","SQL"]` given to
`find_jobs`, the prompt passed to the extraction adapter contains the
literal substring "Python, SQL": the joined skills string equals
"Python, SQL", it is embedded in the extraction instruction, and
`find_jobs` queries the extraction adapter at exactly that instruction
(and the constructed URLs), so any two adapters agreeing there make
`find_jobs` agree. -/
theorem claim_C7_amended_skills_in_extraction_prompt
    (job_title location : String) (experience_years : Nat) :
    pyJoin ", " ["Python", "SQL"] = "Python, SQL" ∧
    StrContains
      (find_jobs_extraction_instruction job_title location experience_years
        (pyJoin ", " ["Python", "SQL"]))
      "Python, SQL" ∧
    (∀ (e1 e2 : List String → String → Except String (RawResponse (Option (List PyDict))))
        (gen : String → String) (skills : List String),
      e1 (find_jobs_urls job_title location)
          (find_jobs_extraction_instruction job_title location experience_years
            (pyJoin ", " skills))
        = e2 (find_jobs_urls job_title location)
            (find_jobs_extraction_instruction job_title location experience_years
              (pyJoin ", " skills)) →
      find_jobs job_title location experience_years skills e1 gen
        = find_jobs job_title location experience_years skills e2 gen) := by
  refine ⟨rfl, ?_, ?_⟩
  · exact strContains_extraction_skills job_title location experience_years
      (pyJoin ", " ["Python", "SQL"])
  · intro e1 e2 gen skills h
    simp only [find_jobs]
    rw [h]

/-- Witness for C7 (amended) at concrete inputs, discharging the
adapter-agreement hypothesis with two equal adapters. -/
theorem claim_C7_amended_witness :
    StrContains
      (find_jobs_extraction_instruction "Software Engineer" "New York" 2
        (pyJoin ", " ["Python", "SQL"]))
      "Python, SQL" ∧
    find_jobs "Software Engineer" "New York" 2 ["Python", "SQL"]
        (fun _ _ => .ok RawResponse.notDict) id
      = find_jobs "Software Engineer" "New York" 2 ["Python", "SQL"]
        (fun _ _ => .ok RawResponse.notDict) id := by
  have h := claim_C7_amended_skills_in_extraction_prompt "Software Engineer" "New York" 2
  exact ⟨h.2.1, h.2.2 (fun _ _ => .ok RawResponse.notDict) (fun _ _ => .ok RawResponse.notDict)
    id ["Python", "SQL"] rfl⟩

/-- C8: invoking `find_jobs` twice with identical inputs against the same
deterministic adapters yields identical output both times, and each call
returns the agent state (the three credential/endpoint values fixed at
construction) unchanged: the method never assigns to `self`, so the
operation is a deterministic function of its inputs and the adapters'
responses. -/
theorem claim_C8_idempotent_no_hidden_state
    (a : JobSearchingAgent) (job_title location : String) (experience_years : Nat)
    (skills : List String)
    (extractSvc : String → List String → String →
      Except String (RawResponse (Option (List PyDict))))
    (genSvc : String → String → String → String) :
    (find_jobs_method a job_title location experience_years skills extractSvc genSvc).2
      = a ∧
    (find_jobs_method
        ((find_jobs_method a job_title location experience_years skills extractSvc genSvc).2)
        job_title location experience_years skills extractSvc genSvc).1
      = (find_jobs_method a job_title location experience_years skills extractSvc genSvc).1 :=
  ⟨rfl, rfl⟩
